import Mathlib

set_option maxRecDepth 4000

namespace TelexSpec

/-- Lowercase a string character by character, modelling JavaScript
`String.prototype.toLowerCase` on the ASCII input this tool handles. -/
def lower (s : String) : String := String.mk (s.data.map Char.toLower)

/-- Contiguous-substring test on character lists: `hasInfix needle hay` is
true iff `needle` occurs contiguously inside `hay`. Models JavaScript
`String.prototype.includes` (which is true for the empty needle). -/
def hasInfix (needle : List Char) : List Char → Bool
  | [] => needle.isEmpty
  | c :: t => needle.isPrefixOf (c :: t) || hasInfix needle t

/-- `includes hay needle` models the JavaScript call `hay.includes(needle)`. -/
def includes (hay needle : String) : Bool := hasInfix needle.data hay.data

/-- Models the JavaScript expression
`language.charAt(0).toUpperCase() + language.slice(1)` (on the empty string
`charAt(0)` is the empty string, so the result is empty). -/
def capFirst (s : String) : String :=
  match s.data with
  | [] => ""
  | c :: cs => String.mk (Char.toUpper c :: cs)

/-- The output category enum of the richer tool variant:
`z.enum(["mastra", "integration", "workflow", "general", "a2a-protocol"])`. -/
inductive Category where
  | mastra
  | integration
  | workflow
  | general
  | a2aProtocol
deriving DecidableEq, Repr

/-- A resource link record: `{title, url, description}`. -/
structure ResourceLink where
  title : String
  url : String
  description : String
deriving DecidableEq, Repr

/-- The guide record returned by the richer tool variant. `example` (modelled as `exampleSnippet`) and
`resources` are optional in the output schema; every record the richer
variant actually returns carries a `resources` list, while `example` is
present only on some. -/
structure GuideResult where
  title : String
  category : Category
  content : String
  exampleSnippet : Option String
  resources : List ResourceLink
deriving DecidableEq, Repr

/-- The output category enum of the simpler tool variant:
`z.enum(["mastra", "integration", "workflow", "general"])` — it has no
`a2a-protocol` member. -/
inductive Category2 where
  | mastra
  | integration
  | workflow
  | general
deriving DecidableEq, Repr

/-- The guide record returned by the simpler tool variant: no `resources`
field in its output schema. -/
structure GuideResult2 where
  title : String
  category : Category2
  content : String
  exampleSnippet : Option String
deriving DecidableEq, Repr

/-- The tool input: `{query: string, language?: string}`. -/
structure Context where
  query : String
  language : Option String

def defaultContentV1 : String :=
  "\nYou can build agents for Telex.im in any language using the **A2A (Agent-to-Agent) Protocol**.\n\n## Quick Start by Language\n\n### TypeScript/JavaScript Developers\nUse **Mastra** framework for the easiest integration:\n- Built-in A2A protocol support\n- Simple deployment options\n- Rich tooling and evaluation framework\n\n### Python Developers\nUse **FastAPI** to build A2A-compatible agents:\n- Lightweight and fast\n- Easy to deploy\n- Full A2A protocol support\n\n### Other Languages (Go, PHP, Java, Rust, C#)\nBuild a REST API that implements the A2A protocol:\n- Create endpoints that handle A2A message format\n- Return responses in A2A-compatible JSON\n- Deploy anywhere that supports HTTP\n\n## Get Started\n\n1. **Join the Telex organization on Slack:**\n   \x60\x60\x60\n   /telex-invite your-email@example.com\n   \x60\x60\x60\n   \n2. **Learn about A2A Protocol:**\n   Understanding how agents communicate is key to successful integration.\n\n3. **Build your agent** using your preferred language/framework\n\n4. **Test your integration** using the logs endpoint:\n   \x60\x60\x60\n   https://api.telex.im/agent-logs/\x7bchannel-id\x7d.txt\n   \x60\x60\x60\n\nAsk me about specific topics like \"mastra setup\", \"python integration\", \"a2a protocol\", or \"workflow examples\" for detailed guidance.\n      "

def a2aContent : String :=
  "\nThe **A2A (Agent-to-Agent) Protocol** is a standardized communication format that allows AI agents to work together seamlessly, regardless of the language or framework they\x27re built with.\n\n## What is A2A?\n\nA2A defines:\n- **Message format**: How agents send and receive information\n- **Action schema**: How agents request actions from each other\n- **State management**: How context is maintained across interactions\n- **Error handling**: How agents communicate failures and issues\n\n## Why A2A Matters\n\n- **Interoperability**: Agents built in Python can talk to agents built in TypeScript\n- **Composability**: Chain multiple specialized agents together into workflows\n- **Flexibility**: Use the best tool for each job without compatibility issues\n- **Scalability**: Build complex multi-agent systems that work together\n\n## Core Concepts\n\n### 1. Message Structure\n\x60\x60\x60json\n\x7b\n  \"message\": \"User\x27s input or request\",\n  \"context\": \x7b\n    \"channel_id\": \"unique-channel-identifier\",\n    \"user_id\": \"user-identifier\",\n    \"thread_id\": \"conversation-thread-id\"\n  \x7d,\n  \"metadata\": \x7b\n    \"timestamp\": \"ISO-8601 timestamp\",\n    \"source\": \"originating agent or user\"\n  \x7d\n\x7d\n\x60\x60\x60\n\n### 2. Response Format\n\x60\x60\x60json\n\x7b\n  \"reply\": \"Agent\x27s text response\",\n  \"actions\": [\n    \x7b\n      \"type\": \"action-type\",\n      \"params\": \x7b \x7d\n    \x7d\n  ],\n  \"context\": \x7b\n    \"updated_state\": \"any state changes\"\n  \x7d\n\x7d\n\x60\x60\x60\n\n### 3. Workflow Integration\nAgents expose an A2A endpoint (typically \x60/a2a/agent/\x7bagentName\x7d\x60) that:\n- Accepts POST requests with A2A message format\n- Processes the request using the agent\x27s logic\n- Returns responses in A2A format\n- Can be chained with other agents in Telex workflows\n\n## Implementation Patterns\n\n**TypeScript/Mastra**: Built-in A2A support via \x60a2a/mastra-a2a-node\x60\n**Python/FastAPI**: Manual implementation of A2A endpoints\n**Other languages**: REST API following A2A message schema\n\n## Next Steps\n\nChoose your implementation path:\n- **TypeScript** ‚Üí Ask about \"mastra setup\"\n- **Python** ‚Üí Ask about \"python fastapi integration\"\n- **Other languages** ‚Üí Ask about \"\x7blanguage\x7d integration\"\n    "

def pythonSetupContent : String :=
  "\nPython developers can build A2A-compatible agents using **FastAPI** - a modern, fast web framework perfect for building agent APIs.\n\n## Quick Setup\n\n### 1. Install Dependencies\n\x60\x60\x60bash\npip install fastapi uvicorn pydantic\n# Optional: for AI model integration\npip install openai anthropic google-generativeai\n\x60\x60\x60\n\n### 2. Create Your Agent Structure\n\x60\x60\x60python\nfrom fastapi import FastAPI, HTTPException\nfrom pydantic import BaseModel\nfrom typing import Optional, List, Dict, Any\n\napp = FastAPI(title=\"My Telex Agent\")\n\nclass A2AMessage(BaseModel):\n    message: str\n    context: Optional[Dict[str, Any]] = None\n    metadata: Optional[Dict[str, Any]] = None\n\nclass A2AResponse(BaseModel):\n    reply: str\n    actions: Optional[List[Dict[str, Any]]] = []\n    context: Optional[Dict[str, Any]] = None\n\n@app.post(\"/a2a/agent/myAgent\")\nasync def handle_a2a_message(msg: A2AMessage) -> A2AResponse:\n    # Your agent logic here\n    response_text = process_message(msg.message, msg.context)\n    \n    return A2AResponse(\n        reply=response_text,\n        actions=[],\n        context=msg.context\n    )\n\ndef process_message(message: str, context: dict) -> str:\n    # Implement your agent\x27s logic\n    # Call AI models, query databases, etc.\n    return f\"Processed: \x7bmessage\x7d\"\n\x60\x60\x60\n\n### 3. Run Your Agent\n\x60\x60\x60bash\nuvicorn main:app --host 0.0.0.0 --port 8000\n# Your A2A endpoint: http://localhost:8000/a2a/agent/myAgent\n\x60\x60\x60\n\n### 4. Deploy to Production\nPopular options:\n- **Railway**: \x60railway up\x60\n- **Render**: Connect your GitHub repo\n- **Fly.io**: \x60fly launch\x60\n- **DigitalOcean App Platform**: Deploy from Git\n\n### 5. Connect to Telex\nUse your deployed URL in Telex workflow:\n\x60\x60\x60json\n\x7b\n  \"type\": \"a2a/generic-node\",\n  \"url\": \"https://your-app.railway.app/a2a/agent/myAgent\"\n\x7d\n\x60\x60\x60\n\n## Best Practices\n\n- **Error Handling**: Always wrap your logic in try-catch blocks\n- **Logging**: Use Python\x27s logging module for debugging\n- **Environment Variables**: Use python-dotenv for API keys\n- **Type Safety**: Leverage Pydantic models for validation\n- **Async Operations**: Use \x60async/await\x60 for I/O operations\n\n## Testing Your Agent\n\n\x60\x60\x60bash\ncurl -X POST http://localhost:8000/a2a/agent/myAgent \\\n  -H \"Content-Type: application/json\" \\\n  -d \x27\x7b\n    \"message\": \"Hello agent!\",\n    \"context\": \x7b\"channel_id\": \"test-123\"\x7d\n  \x7d\x27\n\x60\x60\x60\n      "

def pythonSetupExample : String :=
  "\n# Complete FastAPI A2A Agent Example\nfrom fastapi import FastAPI\nfrom pydantic import BaseModel\nfrom typing import Optional, List, Dict, Any\nimport os\n\napp = FastAPI()\n\nclass A2AMessage(BaseModel):\n    message: str\n    context: Optional[Dict[str, Any]] = None\n\nclass A2AResponse(BaseModel):\n    reply: str\n    actions: List[Dict[str, Any]] = []\n\n@app.post(\"/a2a/agent/assistant\")\nasync def agent_endpoint(msg: A2AMessage):\n    try:\n        # Your AI logic here\n        reply = f\"You said: \x7bmsg.message\x7d\"\n        \n        return A2AResponse(\n            reply=reply,\n            actions=[]\n        )\n    except Exception as e:\n        return A2AResponse(\n            reply=f\"Error: \x7bstr(e)\x7d\",\n            actions=[]\n        )\n      "

def pythonOverviewContent : String :=
  "\nBuild production-ready A2A agents with Python and FastAPI.\n\n**Key Steps:**\n1. Install FastAPI and Pydantic\n2. Create A2A message handlers with proper schemas\n3. Implement your agent logic (AI calls, data processing, etc.)\n4. Deploy to Railway, Render, or Fly.io\n5. Connect your endpoint to Telex workflows\n\n**Your A2A endpoint structure:**\n\x60POST /a2a/agent/\x7bagentName\x7d\x60\n\nFor detailed setup instructions, ask me about \"python fastapi setup\".\n    "

def mastraSetupContentV1 : String :=
  "\nMastra is the easiest way for TypeScript developers to build A2A-compatible agents for Telex.im.\n\n## Installation & Setup\n\n### 1. Create New Mastra Project\n\x60\x60\x60bash\nnpm create mastra@latest -y\n# or with pnpm\npnpm create mastra@latest -y\n\x60\x60\x60\n\n**Optional flags:**\n- \x60--no-example\x60 - Skip the default weather agent\n- \x60--template <name>\x60 - Start from a template\n\n### 2. Install Dependencies\n\x60\x60\x60bash\ncd your-project-name\nnpm install\n\x60\x60\x60\n\n### 3. Configure Environment Variables\nCreate \x60.env\x60 file:\n\x60\x60\x60env\n# Choose your AI provider\nGOOGLE_GENERATIVE_AI_API_KEY=your_gemini_key\n# OR\nOPENAI_API_KEY=your_openai_key\n# OR\nANTHROPIC_API_KEY=your_anthropic_key\n\n# Optional: Database for memory\nLIBSQL_URL=file:./mastra.db\nLIBSQL_AUTH_TOKEN=your_token_if_using_cloud\n\x60\x60\x60\n\n### 4. Project Structure\n\x60\x60\x60\nsrc/mastra/\n‚îú‚îÄ‚îÄ agents/        # Your AI agents\n‚îÇ   ‚îî‚îÄ‚îÄ my-agent.ts\n‚îú‚îÄ‚îÄ tools/         # Tools agents can use\n‚îÇ   ‚îî‚îÄ‚îÄ my-tool.ts\n‚îú‚îÄ‚îÄ workflows/     # Multi-step workflows\n‚îÇ   ‚îî‚îÄ‚îÄ my-workflow.ts\n‚îî‚îÄ‚îÄ scorers/       # Evaluation logic (optional)\n    ‚îî‚îÄ‚îÄ my-scorer.ts\n\x60\x60\x60\n\n### 5. Create Your First Agent\n\x60\x60\x60typescript\n// src/mastra/agents/telex-agent.ts\nimport \x7b Agent \x7d from \x27@mastra/core/agent\x27;\n\nexport const myAgent = new Agent(\x7b\n  name: \x27My Telex Agent\x27,\n  instructions: \x27You are a helpful assistant for Telex users.\x27,\n  model: \x27google/gemini-2.0-flash-exp\x27,\n  tools: \x7b\x7d,\n\x7d);\n\x60\x60\x60\n\n### 6. Start Development Server\n\x60\x60\x60bash\nnpm run dev\n\x60\x60\x60\nOpens playground at: **http://localhost:4111**\n\n### 7. Test Your Agent\n- Open the Playground UI\n- Select your agent from the dropdown\n- Start chatting to test behavior\n- Iterate and refine\n\n### 8. Deploy Your Agent\nChoose your deployment platform:\n\n**Vercel** (Recommended for Mastra):\n\x60\x60\x60bash\nnpm run build\nvercel deploy\n\x60\x60\x60\n\n**Render/Railway/Fly.io**:\n\x60\x60\x60bash\nnpm run build\n# Follow platform-specific deployment\n\x60\x60\x60\n\n**Mastra Cloud**:\n\x60\x60\x60bash\nmastra deploy\n\x60\x60\x60\n\n### 9. Connect to Telex\nYour agent\x27s A2A endpoint will be:\n\x60\x60\x60\nhttps://your-domain.com/a2a/agent/myAgent\n\x60\x60\x60\n\nAdd this to your Telex workflow node.\n\n## Requirements\n\n- **Node.js**: 20.x or higher\n- **Package Manager**: npm, pnpm, or yarn\n- **API Key**: For your chosen AI provider (Gemini, OpenAI, Anthropic)\n\n## Next Steps\n\n- Add tools to extend agent capabilities\n- Implement memory for context retention\n- Create workflows for complex tasks\n- Add scorers for evaluation\n\nFor Telex-specific integration, ask about \"telex integration\" or \"workflow examples\".\n      "

def mastraSetupExampleV1 : String :=
  "\n\x7b\n  \"scripts\": \x7b\n    \"dev\": \"mastra dev\",\n    \"build\": \"mastra build\",\n    \"start\": \"mastra start\"\n  \x7d,\n  \"dependencies\": \x7b\n    \"@mastra/core\": \"latest\",\n    \"zod\": \"^4\"\n  \x7d,\n  \"devDependencies\": \x7b\n    \"typescript\": \"latest\",\n    \"@types/node\": \"latest\"\n  \x7d\n\x7d\n      "

def mastraOverviewContentV1 : String :=
  "\nMastra is a TypeScript-first framework for building production-ready AI agents with built-in A2A protocol support.\n\n## Key Features\n\n- **Quick Start**: \x60npm create mastra@latest -y\x60\n- **Built-in A2A**: Native Telex.im integration\n- **Multi-Model**: OpenAI, Gemini, Anthropic, and more\n- **Playground**: Test at localhost:4111\n- **Tools & Memory**: Extend agent capabilities\n- **Workflows**: Chain multiple agents together\n- **Scorers**: Evaluate agent performance\n\n## For Telex Integration\n\nMastra agents work seamlessly with Telex through the \x60a2a/mastra-a2a-node\x60 connector.\n\nAsk about:\n- \"mastra setup\" - Detailed installation guide\n- \"telex integration\" - How to connect to Telex.im\n- \"workflow examples\" - Sample configurations\n    "

def genericTitleV1 (language : String) : String :=
  "Building a " ++ (capFirst language) ++ " Agent for Telex.im"

def genericContentV1 (language : String) : String :=
  "\nBuild an A2A-compatible agent in " ++ language ++ " by implementing a REST API that follows the A2A protocol.\n\n## Implementation Steps\n\n### 1. Create an HTTP Server\nSet up a web server that can handle POST requests.\n\n### 2. Implement A2A Endpoint\n\x60\x60\x60\nPOST /a2a/agent/\x7byour-agent-name\x7d\nContent-Type: application/json\n\x60\x60\x60\n\n### 3. Handle Request Format\n\x60\x60\x60json\n\x7b\n  \"message\": \"User\x27s input or request\",\n  \"context\": \x7b\n    \"channel_id\": \"unique-channel-id\",\n    \"user_id\": \"user-id\",\n    \"thread_id\": \"thread-id\"\n  \x7d,\n  \"metadata\": \x7b\n    \"timestamp\": \"2024-01-01T12:00:00Z\"\n  \x7d\n\x7d\n\x60\x60\x60\n\n### 4. Return Response Format\n\x60\x60\x60json\n\x7b\n  \"reply\": \"Your agent\x27s text response\",\n  \"actions\": [\n    \x7b\n      \"type\": \"action-type\",\n      \"params\": \x7b\x7d\n    \x7d\n  ],\n  \"context\": \x7b\n    \"updated_state\": \"any state changes\"\n  \x7d\n\x7d\n\x60\x60\x60\n\n### 5. Deploy Your Service\nHost your API publicly:\n- **Cloud Platforms**: AWS, GCP, Azure\n- **Platform-as-a-Service**: Heroku, Render, Railway\n- **Containerization**: Docker + Kubernetes\n\n### 6. Connect to Telex\nUse your public endpoint in Telex workflow:\n\x60\x60\x60json\n\x7b\n  \"type\": \"a2a/generic-node\",\n  \"url\": \"https://your-api.com/a2a/agent/yourAgent\"\n\x7d\n\x60\x60\x60\n\n## Best Practices\n\n- **Error Handling**: Return meaningful error messages in A2A format\n- **Logging**: Track requests for debugging\n- **Authentication**: Validate requests from Telex (if needed)\n- **Timeouts**: Respond within reasonable time (< 30s)\n- **State Management**: Use context to maintain conversation state\n\n## Testing\n\nTest your endpoint locally:\n\x60\x60\x60bash\ncurl -X POST http://localhost:your-port/a2a/agent/yourAgent \\\n  -H \"Content-Type: application/json\" \\\n  -d \x27\x7b\n    \"message\": \"test message\",\n    \"context\": \x7b\"channel_id\": \"test\"\x7d\n  \x7d\x27\n\x60\x60\x60\n\nMonitor in production:\n\x60\x60\x60\nhttps://api.telex.im/agent-logs/\x7bchannel-id\x7d.txt\n\x60\x60\x60\n    "

def workflowContentV1 : String :=
  "\nHere are example workflow configurations for connecting different types of agents to Telex.im.\n\n## Mastra Agent Workflow\n\nFor TypeScript agents built with Mastra:\n\n\x60\x60\x60json\n\x7b\n  \"active\": true,\n  \"category\": \"developer-tools\",\n  \"description\": \"AI assistant built with Mastra framework\",\n  \"id\": \"mastra-agent-workflow\",\n  \"name\": \"my_mastra_agent\",\n  \"nodes\": [\n    \x7b\n      \"id\": \"mastra_node\",\n      \"name\": \"My Mastra Agent\",\n      \"type\": \"a2a/mastra-a2a-node\",\n      \"typeVersion\": 1,\n      \"url\": \"https://your-app.vercel.app/a2a/agent/myAgent\",\n      \"position\": [400, 200]\n    \x7d\n  ],\n  \"settings\": \x7b\n    \"executionOrder\": \"v1\"\n  \x7d,\n  \"short_description\": \"Helpful AI assistant\"\n\x7d\n\x60\x60\x60\n\n## Python/FastAPI Agent Workflow\n\nFor Python agents using FastAPI:\n\n\x60\x60\x60json\n\x7b\n  \"active\": true,\n  \"category\": \"automation\",\n  \"description\": \"Python-based AI agent\",\n  \"id\": \"python-agent-workflow\",\n  \"name\": \"my_python_agent\",\n  \"nodes\": [\n    \x7b\n      \"id\": \"python_node\",\n      \"name\": \"My Python Agent\",\n      \"type\": \"a2a/generic-node\",\n      \"typeVersion\": 1,\n      \"url\": \"https://your-app.railway.app/a2a/agent/assistant\",\n      \"position\": [400, 200]\n    \x7d\n  ],\n  \"settings\": \x7b\n    \"executionOrder\": \"v1\"\n  \x7d\n\x7d\n\x60\x60\x60\n\n## Multi-Agent Workflow\n\nChain multiple agents together:\n\n\x60\x60\x60json\n\x7b\n  \"active\": true,\n  \"name\": \"multi_agent_workflow\",\n  \"nodes\": [\n    \x7b\n      \"id\": \"research_agent\",\n      \"name\": \"Research Agent\",\n      \"type\": \"a2a/mastra-a2a-node\",\n      \"url\": \"https://api.example.com/a2a/agent/researcher\",\n      \"position\": [200, 200]\n    \x7d,\n    \x7b\n      \"id\": \"writer_agent\",\n      \"name\": \"Writer Agent\",\n      \"type\": \"a2a/mastra-a2a-node\",\n      \"url\": \"https://api.example.com/a2a/agent/writer\",\n      \"position\": [600, 200]\n    \x7d\n  ],\n  \"connections\": [\n    \x7b\n      \"source\": \"research_agent\",\n      \"target\": \"writer_agent\"\n    \x7d\n  ]\n\x7d\n\x60\x60\x60\n\n## Key Configuration Fields\n\n- **type**: Node type\n  - \x60a2a/mastra-a2a-node\x60 for Mastra agents\n  - \x60a2a/generic-node\x60 for other implementations\n- **url**: Your agent\x27s A2A endpoint\n- **position**: Visual position in workflow editor [x, y]\n- **connections**: How agents are linked together\n\n## Testing Your Workflow\n\nAfter creating a workflow:\n\n1. **Deploy** your agent to get a public URL\n2. **Add** the workflow in Telex dashboard\n3. **Test** by sending messages in connected channel\n4. **Monitor** logs at: \x60https://api.telex.im/agent-logs/\x7bchannel-id\x7d.txt\x60\n5. **Iterate** based on logs and user feedback\n    "

def workflowExampleV1 : String :=
  "\n\x7b\n  \"type\": \"a2a/mastra-a2a-node\",\n  \"url\": \"https://your-deployed-agent.com/a2a/agent/agentName\",\n  \"position\": [400, 200]\n\x7d\n    "

def telexDetailedContent : String :=
  "\nConnect any A2A-compatible agent to Telex.im workflows and enable agent-to-agent collaboration.\n\n## Integration Overview\n\nTelex.im uses the **A2A (Agent-to-Agent) Protocol** to connect agents, regardless of the language or framework they\x27re built with.\n\n## Steps to Integrate\n\n### 1. Build Your Agent\nChoose your path:\n- **TypeScript** ‚Üí Use Mastra framework (easiest)\n- **Python** ‚Üí Use FastAPI with A2A endpoints\n- **Other languages** ‚Üí Build REST API following A2A spec\n\n### 2. Deploy Your Agent\nGet a public URL for your agent:\n\n**For Mastra (TypeScript):**\n\x60\x60\x60bash\n# Vercel (recommended)\nvercel deploy\n\n# Railway\nrailway up\n\n# Render\ngit push origin main  # (auto-deploys)\n\x60\x60\x60\n\n**For Python/FastAPI:**\n\x60\x60\x60bash\n# Railway\nrailway up\n\n# Render\n# Connect GitHub and deploy\n\n# Fly.io\nfly launch\n\x60\x60\x60\n\nYour A2A endpoint: \x60https://your-domain.com/a2a/agent/\x7bagentName\x7d\x60\n\n### 3. Join Telex Organization\nRun this in your Slack workspace:\n\x60\x60\x60\n/telex-invite your-email@example.com\n\x60\x60\x60\n\nYou\x27ll receive an invite to access the Telex dashboard.\n\n### 4. Create Workflow in Telex\n\n**In Telex Dashboard:**\n1. Go to **Workflows** ‚Üí **Add New**\n2. Choose **Create New AI Colleague**\n3. Configure your agent node:\n\n**For Mastra agents:**\n\x60\x60\x60json\n\x7b\n  \"id\": \"my_agent_node\",\n  \"name\": \"My Agent\",\n  \"type\": \"a2a/mastra-a2a-node\",\n  \"url\": \"https://your-app.vercel.app/a2a/agent/myAgent\",\n  \"position\": [400, 200]\n\x7d\n\x60\x60\x60\n\n**For Python/Other agents:**\n\x60\x60\x60json\n\x7b\n  \"id\": \"my_agent_node\",\n  \"name\": \"My Agent\",\n  \"type\": \"a2a/generic-node\",\n  \"url\": \"https://your-app.railway.app/a2a/agent/assistant\",\n  \"position\": [400, 200]\n\x7d\n\x60\x60\x60\n\n### 5. Connect to a Channel\n1. Link your workflow to a Slack/Teams channel\n2. Configure triggers (new message, command, webhook)\n3. Save and activate the workflow\n\n### 6. Test Your Integration\n\n**Send a test message** in your connected channel:\n\x60\x60\x60\n@your-agent help\n\x60\x60\x60\n\n**Monitor logs** to debug:\n\x60\x60\x60bash\n# Replace \x7bchannel-id\x7d with your actual channel ID\ncurl https://api.telex.im/agent-logs/\x7bchannel-id\x7d.txt\n\x60\x60\x60\n\n### 7. Iterate and Improve\n- Review logs for errors or unexpected behavior\n- Update your agent\x27s logic\n- Redeploy\n- Test again\n\n## Advanced Features\n\n### Multi-Agent Workflows\nChain agents together:\n- Research agent ‚Üí Writing agent ‚Üí Publishing agent\n- Each agent handles a specialized task\n\n### Context Management\nUse the \x60context\x60 field to:\n- Maintain conversation state\n- Pass data between agents\n- Track user preferences\n\n### Error Handling\nAlways return valid A2A responses:\n\x60\x60\x60json\n\x7b\n  \"reply\": \"I encountered an error: \x7berror_message\x7d\",\n  \"actions\": [],\n  \"context\": \x7b\"error\": true\x7d\n\x7d\n\x60\x60\x60\n\n## Deployment Best Practices\n\n‚úÖ **Use environment variables** for API keys\n‚úÖ **Implement health checks** for monitoring\n‚úÖ **Add request logging** for debugging\n‚úÖ **Set timeouts** to prevent hanging\n‚úÖ **Validate inputs** before processing\n‚úÖ **Use HTTPS** for production endpoints\n‚úÖ **Version your API** for backward compatibility\n\n## Troubleshooting\n\n**Agent not responding?**\n- Check logs: \x60https://api.telex.im/agent-logs/\x7bchannel-id\x7d.txt\x60\n- Verify endpoint URL is publicly accessible\n- Ensure A2A response format is correct\n\n**Workflow not triggering?**\n- Check workflow is activated in Telex dashboard\n- Verify channel connection is properly configured\n- Test with direct mention: @your-agent\n\n**Getting timeout errors?**\n- Optimize your agent\x27s response time\n- Move heavy processing to background tasks\n- Return acknowledgment quickly, process async\n\n**Context not persisting?**\n- Implement proper state management in your agent\n- Use the context field to pass state between turns\n- Consider adding a database for long-term memory\n\n## Need Help?\n\nAsk me about:\n- \"mastra setup\" - Detailed Mastra installation\n- \"python integration\" - FastAPI implementation guide\n- \"workflow examples\" - More configuration samples\n- \"a2a protocol\" - Understanding agent communication\n      "

def telexOverviewContent : String :=
  "\nTelex.im connects AI agents through the **A2A (Agent-to-Agent) Protocol**, enabling seamless collaboration between agents built in any language.\n\n## Quick Integration Steps\n\n1. **Build** your agent (Mastra, FastAPI, or custom)\n2. **Deploy** to get a public URL\n3. **Join** Telex org: \x60/telex-invite your-email@example.com\x60\n4. **Create** workflow in Telex dashboard\n5. **Connect** to your Slack/Teams channel\n6. **Test** and monitor via logs\n\n## Agent Node Types\n\n- **\x60a2a/mastra-a2a-node\x60** - For Mastra (TypeScript) agents\n- **\x60a2a/generic-node\x60** - For Python, Go, and other implementations\n\n## Monitoring & Debugging\n\nCheck your agent logs:\n\x60\x60\x60\nhttps://api.telex.im/agent-logs/\x7bchannel-id\x7d.txt\n\x60\x60\x60\n\nFor detailed integration steps, ask about \"telex integration guide\" or \"connect agent to telex\".\n    "

def defaultContentV2 : String :=
  "\n        You can build agents for Telex.im in any language.\n        - For TypeScript/JavaScript → Use **Mastra** to create and deploy your agent.\n        - For other languages → Create a REST or WebSocket API that communicates with Telex.im.\n        \n        Run this command on Slack to join the organization:\n        \x60/telex-invite your-email@example.com\x60\n        Swap in your actual email. You\x27ll get added to the organisation and can start testing\n        \n        Once you\x27re connected, test your agent using the logs endpoint:\n        https://api.telex.im/agent-logs/\x7bchannel-id\x7d.txt\n      "

def mastraSetupContentV2 : String :=
  "\nMastra helps you build, evaluate, and deploy AI agents easily.  \nFollow these steps to install and test your first agent:\n\n1. **Install Mastra using the CLI**\n   \x60\x60\x60bash\n   npm create mastra@latest -y\n   # or\n   pnpm create mastra@latest -y\n   \x60\x60\x60\n\n   You can add flags like:\n   - \x60--no-example\x60 to skip the weather agent\n   - \x60--template <name>\x60 to start from a specific template\n\n2. **Start the development server**\n   \x60\x60\x60bash\n   npm run dev\n   \x60\x60\x60\n   Then open the playground: [http://localhost:4111](http://localhost:4111)\n\n3. **Add your environment variables**\n   Create an \x60.env\x60 file and include your model API key:\n   \x60\x60\x60env\n   GOOGLE_GENERATIVE_AI_API_KEY=<your-api-key>\n   \x60\x60\x60\n   You can use Gemini, OpenAI, Anthropic, or any supported model.\n\n4. **Project structure**\n   After setup, you\x27ll see a \x60src/mastra\x60 folder with:\n   - \x60/agents\x60 → your agents (e.g. \x60weather-agent.ts\x60)\n   - \x60/tools\x60 → tools that agents can call (e.g. \x60weather-tool.ts\x60)\n   - \x60/scorers\x60 → evaluation logic for tools (optional)\n\n5. **Build and run**\n   \x60\x60\x60bash\n   npm run build\n   npm run dev\n   \x60\x60\x60\n   You can now chat with your agent in the Playground UI.\n\n---\n\n🧠 **Note:**  \nYou\x27ll need Node.js 20+ and a valid model API key.  \nMastra works great with both **TypeScript** and **JavaScript** — you can rename files to \x60.js\x60 if you prefer.\n      "

def mastraSetupExampleV2 : String :=
  "\n\x7b\n  \"scripts\": \x7b\n    \"dev\": \"mastra dev\",\n    \"build\": \"mastra build\"\n  \x7d,\n  \"dependencies\": \x7b\n    \"@mastra/core\": \"latest\",\n    \"zod\": \"^4\"\n  \x7d,\n  \"devDependencies\": \x7b\n    \"typescript\": \"latest\",\n    \"@types/node\": \"latest\"\n  \x7d\n\x7d\n      "

def mastraOverviewContentV2 : String :=
  "\nMastra is a TypeScript-first framework for building AI agents, tools, and evaluators.\n\n- To start a new project: \x60npm create mastra@latest -y\x60\n- Default port: **4111**\n- Supports models from OpenAI, Gemini, Anthropic, and others\n- Built-in Playground for testing and evaluation\n\nFor integrations (like Telex.im), see the **Telex Integration Guide** function separately.\n    "

def genericTitleV2 (language : String) : String :=
  "Building a " ++ language ++ " Agent for Telex.im"

def genericContentV2 (language : String) : String :=
  "\n      To integrate your " ++ language ++ " agent with Telex.im:\n      1. Create a REST API endpoint (e.g. /message or /event) that receives JSON messages.\n      2. Parse incoming messages from Telex.im and respond with valid JSON actions.\n      3. Example request format:\n         \x7b\n           \"sender\": \"user\",\n           \"message\": \"get project status\",\n           \"context\": \x7b \"channel_id\": \"uuid-here\" \x7d\n         \x7d\n\n      4. Respond with:\n         \x7b\n           \"reply\": \"Project is 80% complete.\",\n           \"actions\": []\n         \x7d\n\n      5. Host your service publicly (e.g. Render, Railway, Vercel).\n      6. Share the endpoint URL with your Telex workflow node.\n\n      Keep it simple and consistent — REST or WebSocket both work fine.\n    "

def workflowContentV2 : String :=
  "\n      Here\x27s a sample workflow connecting your Mastra agent to Telex.im:\n    "

def workflowExampleV2 : String :=
  "\n    \x7b\n      \"active\": true,\n      \"category\": \"developer-tools\",\n      \"description\": \"Workflow for the Telex Agent Builder assistant\",\n      \"id\": \"AB12x7z3qTelexAgent\",\n      \"name\": \"telex_agent_builder\",\n      \"nodes\": [\n        \x7b\n          \"id\": \"telex_builder_node\",\n          \"name\": \"Telex Agent Builder\",\n          \"type\": \"a2a/mastra-a2a-node\",\n          \"typeVersion\": 1,\n          \"url\": \"https://telex-mastra.mastra.cloud/a2a/agent/telexAgentBuilder\",\n          \"position\": [700, 100]\n        \x7d\n      ],\n      \"settings\": \x7b \"executionOrder\": \"v1\" \x7d,\n      \"short_description\": \"Helps developers build agents with Mastra and Telex.im\"\n    \x7d\n    "

def telexDetailedContentV2 : String :=
  "\nMastra agents can integrate directly with **Telex.im** workflows through the **a2a/mastra-a2a-node** connector.  \nThis allows your Mastra-built agent to respond to messages or automate tasks inside Telex channels.\n\n---\n\n## 🔧 Steps to Integrate\n\n1. **Deploy or expose your Mastra agent**\n   - If running locally, ensure your Mastra dev server is live (default: http://localhost:4111).\n   - For production, deploy your agent (e.g. on Vercel, Render, Fly.io, or Mastra Cloud).\n\n   Example production URL:\n   \x60\x60\x60bash\n   https://telex-mastra.mastra.cloud/a2a/agent/telexAgentBuilder\n   \x60\x60\x60\n\n2. **Create a Telex workflow**\n   Go to your Telex dashboard → **Add New** → **Create a New AI Colleague**.\n\n   Use the node type:\n   \x60\x60\x60json\n   \x7b\n     \"id\": \"telex_agent_node\",\n     \"name\": \"Telex Agent Builder\",\n     \"type\": \"a2a/mastra-a2a-node\",\n     \"url\": \"https://telex-mastra.mastra.cloud/a2a/agent/telexAgentBuilder\",\n     \"position\": [400, 200]\n   \x7d\n   \x60\x60\x60\n\n3. **Connect it to a channel**\n   - Add your agent node to an existing Telex workflow.\n   - Link it to the appropriate input or event (like new message, command, or webhook).\n\n4. **Test the integration**\n   Once connected, test it by sending messages in your Telex channel.  \n   You can check logs with:\n   \x60\x60\x60bash\n   https://api.telex.im/agent-logs/\x7bchannel-id\x7d.txt\n   \x60\x60\x60\n\n5. **Customize behavior**\n   You can extend your agent by:\n   - Adding more tools (e.g. \x60telex-guide-tool.ts\x60)\n   - Defining custom scorers for Telex requests\n   - Managing long-term state with Mastra\x27s \x60Memory\x60 API (LibSQL or Redis)\n\n---\n\n🧠 **Tips**\n- Ensure your Mastra agent exposes a stable public URL (no localhost in production).\n- Each agent can handle multiple workflows or channels.\n- Use clear agent names (e.g. \"Telex Workflow Assistant\", \"Telex AutoResponder\").\n\n---\n\nExample workflow snippet:\n\x60\x60\x60json\n\x7b\n  \"name\": \"telex_agent_builder\",\n  \"description\": \"Helps developers integrate their agents with Telex.im\",\n  \"nodes\": [\n    \x7b\n      \"id\": \"telex_agent_node\",\n      \"name\": \"Telex Agent Builder\",\n      \"type\": \"a2a/mastra-a2a-node\",\n      \"url\": \"https://telex-mastra.mastra.cloud/a2a/agent/telexAgentBuilder\",\n      \"position\": [400, 200]\n    \x7d\n  ]\n\x7d\n\x60\x60\x60\n      "

def telexDetailedExampleV2 : String :=
  "\n\x7b\n  \"type\": \"a2a/mastra-a2a-node\",\n  \"url\": \"https://your-deployed-agent-url/a2a/agent/yourAgentName\"\n\x7d\n      "

def telexOverviewContentV2 : String :=
  "\nTelex.im supports AI agent integrations through \"a2a\" (agent-to-agent) workflows.\n\nTo integrate a Mastra agent:\n- Use node type: \x60a2a/mastra-a2a-node\x60\n- Provide your agent\x27s public endpoint (Mastra Cloud or your deployment)\n- Monitor logs using: \x60https://api.telex.im/agent-logs/\x7bchannel-id\x7d.txt\x60\n\nSee the full integration guide for deployment and configuration details.\n    "

namespace V1

/-- The static A2A-protocol guide returned by `getA2AProtocolGuide`. -/
def getA2AProtocolGuide : GuideResult :=
  { title := "Understanding the A2A (Agent-to-Agent) Protocol"
    category := Category.a2aProtocol
    content := a2aContent
    exampleSnippet := none
    resources := [
      { title := "What is A2A? Understanding the Agent-to-Agent Protocol"
        url := "https://fynix.dev/blog/what-is-a2a"
        description := "Deep dive into A2A protocol fundamentals and use cases" }] }

/-- The setup-variant record of `getPythonFastAPIGuide`. -/
def pythonSetupGuide : GuideResult :=
  { title := "Building A2A Agents with Python and FastAPI"
    category := Category.integration
    content := pythonSetupContent
    exampleSnippet := some pythonSetupExample
    resources := [
      { title := "Building A2A Protocol Agents with Python and FastAPI"
        url := "https://fynix.dev/blog/a2a-python-fastapi"
        description := "Complete tutorial with production-ready examples" },
      { title := "What is A2A? Understanding the Agent-to-Agent Protocol"
        url := "https://fynix.dev/blog/what-is-a2a"
        description := "Learn the protocol that powers agent communication" }] }

/-- The overview-variant record of `getPythonFastAPIGuide`. -/
def pythonOverviewGuide : GuideResult :=
  { title := "Python FastAPI + Telex Integration Overview"
    category := Category.integration
    content := pythonOverviewContent
    exampleSnippet := none
    resources := [
      { title := "Building A2A Protocol Agents with Python and FastAPI"
        url := "https://fynix.dev/blog/a2a-python-fastapi"
        description := "Step-by-step guide with code examples" }] }

/-- `getPythonFastAPIGuide(query)`: lower-cases the query again and picks the
setup variant on the keywords setup / install / start, else the overview. -/
def getPythonFastAPIGuide (query : String) : GuideResult :=
  let q := lower query
  if includes q "setup" || includes q "install" || includes q "start" then
    pythonSetupGuide
  else
    pythonOverviewGuide

/-- The setup-variant record of the richer `getMastraIntegrationGuide`. -/
def mastraSetupGuide : GuideResult :=
  { title := "Setting Up Mastra for Telex Integration"
    category := Category.mastra
    content := mastraSetupContentV1
    exampleSnippet := some mastraSetupExampleV1
    resources := [
      { title := "Building Intelligent Workflows: Integrating Mastra A2A Protocol with Telex"
        url := "https://fynix.dev/blog/telex-x-mastra"
        description := "Complete guide to Mastra + Telex integration" },
      { title := "What is A2A? Understanding the Agent-to-Agent Protocol"
        url := "https://fynix.dev/blog/what-is-a2a"
        description := "Learn the protocol powering Mastra\x27s agent communication" }] }

/-- The overview-variant record of the richer `getMastraIntegrationGuide`. -/
def mastraOverviewGuide : GuideResult :=
  { title := "Mastra Framework Overview"
    category := Category.mastra
    content := mastraOverviewContentV1
    exampleSnippet := none
    resources := [
      { title := "Building Intelligent Workflows: Integrating Mastra A2A Protocol with Telex"
        url := "https://fynix.dev/blog/telex-x-mastra"
        description := "Official integration guide" }] }

/-- `getMastraIntegrationGuide(query)` (richer variant): lower-cases the query
and picks the setup variant on setup / install / initialize / start. -/
def getMastraIntegrationGuide (query : String) : GuideResult :=
  let q := lower query
  if includes q "setup" || includes q "install" || includes q "initialize" ||
      includes q "start" then
    mastraSetupGuide
  else
    mastraOverviewGuide

/-- `getGenericIntegrationGuide(language)` (richer variant): title and content
are templated with the (already lower-cased) language name. -/
def getGenericIntegrationGuide (language : String) : GuideResult :=
  { title := genericTitleV1 language
    category := Category.integration
    content := genericContentV1 language
    exampleSnippet := none
    resources := [
      { title := "What is A2A? Understanding the Agent-to-Agent Protocol"
        url := "https://fynix.dev/blog/what-is-a2a"
        description := "Protocol specification and implementation patterns" }] }

/-- `getWorkflowExample()` (richer variant): the static workflow guide. -/
def getWorkflowExample : GuideResult :=
  { title := "Sample Telex Workflow Configurations"
    category := Category.workflow
    content := workflowContentV1
    exampleSnippet := some workflowExampleV1
    resources := [
      { title := "Building Intelligent Workflows: Integrating Mastra A2A Protocol with Telex"
        url := "https://fynix.dev/blog/telex-x-mastra"
        description := "Deep dive into workflow configuration and best practices" }] }

/-- The detailed record of the richer `getTelexIntegrationGuide`. -/
def telexDetailedGuide : GuideResult :=
  { title := "Connecting Your Agent to Telex.im"
    category := Category.integration
    content := telexDetailedContent
    exampleSnippet := none
    resources := [
      { title := "Building Intelligent Workflows: Integrating Mastra A2A Protocol with Telex"
        url := "https://fynix.dev/blog/telex-x-mastra"
        description := "Complete integration guide with deployment examples" },
      { title := "What is A2A? Understanding the Agent-to-Agent Protocol"
        url := "https://fynix.dev/blog/what-is-a2a"
        description := "Learn the protocol that powers Telex agent communication" }] }

/-- The overview record of the richer `getTelexIntegrationGuide`. -/
def telexOverviewGuide : GuideResult :=
  { title := "Telex.im Integration Overview"
    category := Category.integration
    content := telexOverviewContent
    exampleSnippet := none
    resources := [
      { title := "Building Intelligent Workflows: Integrating Mastra A2A Protocol with Telex"
        url := "https://fynix.dev/blog/telex-x-mastra"
        description := "Step-by-step integration tutorial" },
      { title := "Building A2A Protocol Agents with Python and FastAPI"
        url := "https://fynix.dev/blog/a2a-python-fastapi"
        description := "Python-specific implementation guide" },
      { title := "What is A2A? Understanding the Agent-to-Agent Protocol"
        url := "https://fynix.dev/blog/what-is-a2a"
        description := "Protocol fundamentals and architecture" }] }

/-- `getTelexIntegrationGuide(query)` (richer variant): lower-cases the query
and picks the detailed variant on connect / integrate / deploy / telex /
workflow, else the overview. -/
def getTelexIntegrationGuide (query : String) : GuideResult :=
  let q := lower query
  if includes q "connect" || includes q "integrate" || includes q "deploy" ||
      includes q "telex" || includes q "workflow" then
    telexDetailedGuide
  else
    telexOverviewGuide

/-- The default record returned by the richer dispatcher when no branch
matches. -/
def defaultGuide : GuideResult :=
  { title := "Getting Started with Telex Agent Builder"
    category := Category.general
    content := defaultContentV1
    exampleSnippet := none
    resources := [
      { title := "What is A2A? Understanding the Agent-to-Agent Protocol"
        url := "https://fynix.dev/blog/what-is-a2a"
        description := "Learn the fundamentals of how agents communicate with each other" },
      { title := "Building Intelligent Workflows: Integrating Mastra A2A Protocol with Telex"
        url := "https://fynix.dev/blog/telex-x-mastra"
        description := "Complete guide for TypeScript/Mastra developers" },
      { title := "Building A2A Protocol Agents with Python and FastAPI"
        url := "https://fynix.dev/blog/a2a-python-fastapi"
        description := "Step-by-step guide for Python developers" }] }

/-- The richer variant of `telexGuideTool.execute`: lower-cases the query and
the (defaulted-to-empty) language hint, then walks the ordered branch list —
A2A protocol, Python/FastAPI, TypeScript/Mastra, other enumerated languages,
workflow/JSON examples, Telex integration, default. -/
def execute (context : Context) : GuideResult :=
  let query := lower context.query
  let language := lower (context.language.getD "")
  if includes query "a2a" || includes query "agent-to-agent" ||
      includes query "protocol" then
    getA2AProtocolGuide
  else if includes language "python" || includes query "python" ||
      includes query "fastapi" then
    getPythonFastAPIGuide query
  else if includes language "typescript" || includes language "javascript" ||
      includes query "mastra" then
    getMastraIntegrationGuide query
  else if !(language == "") &&
      (["go", "java", "php", "rust", "c#", "csharp"].any fun lang =>
        includes language lang) then
    getGenericIntegrationGuide language
  else if includes query "workflow" || includes query "json" ||
      includes query "example" then
    getWorkflowExample
  else if includes query "connect" || includes query "integrate" ||
      includes query "telex" then
    getTelexIntegrationGuide query
  else
    defaultGuide

end V1

namespace V2

/-- The setup-variant record of the simpler `getMastraIntegrationGuide`. -/
def mastraSetupGuide : GuideResult2 :=
  { title := "Setting Up Mastra Locally"
    category := Category2.mastra
    content := mastraSetupContentV2
    exampleSnippet := some mastraSetupExampleV2 }

/-- The overview-variant record of the simpler `getMastraIntegrationGuide`. -/
def mastraOverviewGuide : GuideResult2 :=
  { title := "Mastra Overview"
    category := Category2.mastra
    content := mastraOverviewContentV2
    exampleSnippet := none }

/-- `getMastraIntegrationGuide(query)` (simpler variant): setup variant on
setup / install / initialize — note: no `start` keyword here. -/
def getMastraIntegrationGuide (query : String) : GuideResult2 :=
  let q := lower query
  if includes q "setup" || includes q "install" || includes q "initialize" then
    mastraSetupGuide
  else
    mastraOverviewGuide

/-- `getGenericIntegrationGuide(language)` (simpler variant): the title embeds
the language name without capitalization. -/
def getGenericIntegrationGuide (language : String) : GuideResult2 :=
  { title := genericTitleV2 language
    category := Category2.integration
    content := genericContentV2 language
    exampleSnippet := none }

/-- `getWorkflowExample()` (simpler variant). -/
def getWorkflowExample : GuideResult2 :=
  { title := "Sample Telex Workflow JSON"
    category := Category2.workflow
    content := workflowContentV2
    exampleSnippet := some workflowExampleV2 }

/-- The detailed record of the simpler `getTelexIntegrationGuide`. -/
def telexDetailedGuide : GuideResult2 :=
  { title := "Integrating Mastra with Telex.im"
    category := Category2.integration
    content := telexDetailedContentV2
    exampleSnippet := some telexDetailedExampleV2 }

/-- The overview record of the simpler `getTelexIntegrationGuide`. -/
def telexOverviewGuide : GuideResult2 :=
  { title := "Telex Integration Overview"
    category := Category2.integration
    content := telexOverviewContentV2
    exampleSnippet := none }

/-- `getTelexIntegrationGuide(query)` (simpler variant): detailed on
connect / integrate / telex / workflow — no `deploy` keyword here. -/
def getTelexIntegrationGuide (query : String) : GuideResult2 :=
  let q := lower query
  if includes q "connect" || includes q "integrate" || includes q "telex" ||
      includes q "workflow" then
    telexDetailedGuide
  else
    telexOverviewGuide

/-- The default record of the simpler dispatcher. -/
def defaultGuide : GuideResult2 :=
  { title := "Getting Started with Telex Agent Builder"
    category := Category2.general
    content := defaultContentV2
    exampleSnippet := none }

/-- The simpler variant of `telexGuideTool.execute`: TypeScript/Mastra, then
the enumerated-languages branch (which here includes python), then
workflow/JSON, then Telex integration, then the default. It has no A2A
protocol branch and no `a2a-protocol` category. -/
def execute (context : Context) : GuideResult2 :=
  let query := lower context.query
  let language := lower (context.language.getD "")
  if includes language "typescript" || includes query "mastra" then
    getMastraIntegrationGuide query
  else if !(language == "") &&
      (["python", "go", "java", "php", "rust", "c#"].any fun lang =>
        includes language lang) then
    getGenericIntegrationGuide language
  else if includes query "workflow" || includes query "json" then
    getWorkflowExample
  else if includes query "connect" || includes query "integrate" ||
      includes query "telex" then
    getTelexIntegrationGuide query
  else
    defaultGuide

end V2
lemma length_append3 (a b c : String) :
    (a ++ b ++ c).length = a.length + b.length + c.length := by
  rw [String.length_append, String.length_append]

lemma genericTitleV1_length (language : String) :
    (genericTitleV1 language).length = 30 + (capFirst language).length := by
  unfold genericTitleV1
  rw [length_append3]
  have h1 : ("Building a " : String).length = 11 := rfl
  have h2 : (" Agent for Telex.im" : String).length = 19 := rfl
  omega

lemma genericTitleV1_ne_empty (language : String) : genericTitleV1 language ≠ "" := by
  intro h
  have hl := congrArg String.length h
  rw [genericTitleV1_length] at hl
  have h0 : ("" : String).length = 0 := rfl
  omega

lemma genericTitleV1_ne_telexOverview (language : String) :
    genericTitleV1 language ≠ "Telex.im Integration Overview" := by
  intro h
  have hl := congrArg String.length h
  rw [genericTitleV1_length] at hl
  have h29 : ("Telex.im Integration Overview" : String).length = 29 := rfl
  omega

lemma genericContentV1_ne_empty (language : String) : genericContentV1 language ≠ "" := by
  intro h
  have hl := congrArg String.length h
  unfold genericContentV1 at hl
  rw [length_append3] at hl
  have h34 : ("\nBuild an A2A-compatible agent in " : String).length = 34 := rfl
  have h0 : ("" : String).length = 0 := rfl
  omega
lemma isPrefixOf_map (f : Char → Char) :
    ∀ n h : List Char, n.isPrefixOf h = true → (n.map f).isPrefixOf (h.map f) = true
  | [], _, _ => by simp [List.isPrefixOf]
  | _ :: _, [], hp => by simp [List.isPrefixOf] at hp
  | a :: as, b :: bs, hp => by
    simp only [List.isPrefixOf, List.map, Bool.and_eq_true, beq_iff_eq] at hp ⊢
    exact ⟨by rw [hp.1], isPrefixOf_map f as bs hp.2⟩

lemma hasInfix_map (f : Char → Char) (needle : List Char) :
    ∀ hay : List Char, hasInfix needle hay = true →
      hasInfix (needle.map f) (hay.map f) = true
  | [], h => by
    unfold hasInfix at h
    rcases needle with _ | ⟨c, t⟩
    · simp [hasInfix, List.isEmpty]
    · simp [List.isEmpty] at h
  | c :: t, h => by
    simp only [hasInfix, Bool.or_eq_true] at h
    simp only [List.map, hasInfix, Bool.or_eq_true]
    rcases h with h | h
    · exact Or.inl (isPrefixOf_map f needle (c :: t) h)
    · exact Or.inr (hasInfix_map f needle t h)

/-- A needle that is fixed by lower-casing occurs in `lower hay` whenever it
occurs in `hay`. -/
lemma includes_lower (hay kw : String) (hkw : kw.data.map Char.toLower = kw.data)
    (h : includes hay kw = true) : includes (lower hay) kw = true := by
  have hm := hasInfix_map Char.toLower kw.data hay.data h
  rw [hkw] at hm
  exact hm

/-- Case analysis on the richer dispatcher: every call lands on one of the
nine concrete records (the Telex-integration case additionally remembers the
branch condition that routed there). -/
lemma execute_cases (ctx : Context) :
    V1.execute ctx = V1.getA2AProtocolGuide ∨
    V1.execute ctx = V1.pythonSetupGuide ∨
    V1.execute ctx = V1.pythonOverviewGuide ∨
    V1.execute ctx = V1.mastraSetupGuide ∨
    V1.execute ctx = V1.mastraOverviewGuide ∨
    V1.execute ctx = V1.getGenericIntegrationGuide (lower (ctx.language.getD "")) ∨
    V1.execute ctx = V1.getWorkflowExample ∨
    ((includes (lower ctx.query) "connect" || includes (lower ctx.query) "integrate" ||
        includes (lower ctx.query) "telex") = true ∧
      V1.execute ctx = V1.getTelexIntegrationGuide (lower ctx.query)) ∨
    V1.execute ctx = V1.defaultGuide := by
  simp only [V1.execute, V1.getPythonFastAPIGuide, V1.getMastraIntegrationGuide]
  repeat' split
  all_goals tauto

/-- If the query handed to `getTelexIntegrationGuide` carries one of the
keywords that route the top-level dispatcher into the Telex-integration
branch, the sub-dispatcher necessarily takes its detailed branch. -/
lemma telex_detailed_of_keyword (query : String)
    (h : (includes query "connect" || includes query "integrate" ||
        includes query "telex") = true) :
    V1.getTelexIntegrationGuide query = V1.telexDetailedGuide := by
  have h5 : (includes (lower query) "connect" || includes (lower query) "integrate" ||
      includes (lower query) "deploy" || includes (lower query) "telex" ||
      includes (lower query) "workflow") = true := by
    simp only [Bool.or_eq_true] at h ⊢
    rcases h with (h | h) | h
    · exact Or.inl (Or.inl (Or.inl (Or.inl (includes_lower query "connect" (by decide) h))))
    · exact Or.inl (Or.inl (Or.inl (Or.inr (includes_lower query "integrate" (by decide) h))))
    · exact Or.inl (Or.inr (includes_lower query "telex" (by decide) h))
  simp [V1.getTelexIntegrationGuide, h5]
lemma pythonSetup_ne_overview : V1.pythonSetupGuide ≠ V1.pythonOverviewGuide := by
  intro h
  exact absurd (congrArg GuideResult.title h) (by decide)

lemma mastraSetup_ne_overview : V1.mastraSetupGuide ≠ V1.mastraOverviewGuide := by
  intro h
  exact absurd (congrArg GuideResult.title h) (by decide)

lemma telexDetailed_ne_overview : V1.telexDetailedGuide ≠ V1.telexOverviewGuide := by
  intro h
  exact absurd (congrArg GuideResult.title h) (by decide)

/-- C1: for every query text (including the empty string) and every optional
language hint, the richer dispatcher returns a guide with a non-empty title,
a non-empty content string, and a category belonging to the declared
five-member enum — it always produces a result. -/
theorem execute_total_wellformed (ctx : Context) :
    (V1.execute ctx).title ≠ "" ∧ (V1.execute ctx).content ≠ "" ∧
    ((V1.execute ctx).category = Category.mastra ∨
      (V1.execute ctx).category = Category.integration ∨
      (V1.execute ctx).category = Category.workflow ∨
      (V1.execute ctx).category = Category.general ∨
      (V1.execute ctx).category = Category.a2aProtocol) := by
  rcases execute_cases ctx with h | h | h | h | h | h | h | ⟨hc, h⟩ | h
  · rw [h]; exact ⟨by decide, by decide, by decide⟩
  · rw [h]; exact ⟨by decide, by decide, by decide⟩
  · rw [h]; exact ⟨by decide, by decide, by decide⟩
  · rw [h]; exact ⟨by decide, by decide, by decide⟩
  · rw [h]; exact ⟨by decide, by decide, by decide⟩
  · rw [h]
    exact ⟨genericTitleV1_ne_empty _, genericContentV1_ne_empty _,
      Or.inr (Or.inl rfl)⟩
  · rw [h]; exact ⟨by decide, by decide, by decide⟩
  · rw [h, telex_detailed_of_keyword _ hc]; exact ⟨by decide, by decide, by decide⟩
  · rw [h]; exact ⟨by decide, by decide, by decide⟩

/-- C2: whenever the query text contains a protocol keyword (a2a,
agent-to-agent, or protocol) and also a workflow-branch keyword (workflow,
json, or example), the richer dispatcher returns the A2A protocol guide with
category a2a-protocol, not the workflow-example guide. -/
theorem protocol_dominates_workflow (ctx : Context)
    (hp : (includes (lower ctx.query) "a2a" ||
        includes (lower ctx.query) "agent-to-agent" ||
        includes (lower ctx.query) "protocol") = true)
    (_hw : (includes (lower ctx.query) "workflow" ||
        includes (lower ctx.query) "json" ||
        includes (lower ctx.query) "example") = true) :
    V1.execute ctx = V1.getA2AProtocolGuide ∧
    (V1.execute ctx).category = Category.a2aProtocol ∧
    (V1.execute ctx).title ≠ V1.getWorkflowExample.title ∧
    (V1.execute ctx).category ≠ V1.getWorkflowExample.category := by
  have he : V1.execute ctx = V1.getA2AProtocolGuide := by
    simp [V1.execute, hp]
  rw [he]
  exact ⟨rfl, rfl, by decide, by decide⟩

/-- C2 witness: the concrete query "a2a workflow" satisfies both keyword
hypotheses and is answered with the protocol guide. -/
theorem protocol_dominates_workflow_witness :
    V1.execute ⟨"a2a workflow", none⟩ = V1.getA2AProtocolGuide ∧
    (V1.execute ⟨"a2a workflow", none⟩).category = Category.a2aProtocol ∧
    (V1.execute ⟨"a2a workflow", none⟩).title ≠ V1.getWorkflowExample.title ∧
    (V1.execute ⟨"a2a workflow", none⟩).category ≠ V1.getWorkflowExample.category :=
  protocol_dominates_workflow ⟨"a2a workflow", none⟩ (by decide) (by decide)

/-- C3 counterexample: the query "how do I set up mastra" (no language hint)
does NOT return the Mastra setup variant titled "Setting Up Mastra for Telex
Integration" — the two-word phrase "set up" fails every substring test of the
sub-dispatcher (setup / install / initialize / start), so the overview
variant is returned instead. -/
theorem mastra_setup_phrase_counterexample :
    (V1.execute ⟨"how do I set up mastra", none⟩).title ≠
      "Setting Up Mastra for Telex Integration" ∧
    (V1.execute ⟨"how do I set up mastra", none⟩).title =
      "Mastra Framework Overview" :=
  ⟨by decide, by decide⟩

/-- C3 (amended): "how do I set up mastra" returns the Mastra overview
variant, because the contiguous keyword "setup" does not occur in the text;
"what is mastra" likewise returns the overview variant; a query that does
contain the contiguous keyword, such as "how do I setup mastra", returns the
setup variant titled "Setting Up Mastra for Telex Integration", whose content
contains the install commands. -/
theorem mastra_subbranch_selection :
    V1.execute ⟨"how do I set up mastra", none⟩ = V1.mastraOverviewGuide ∧
    V1.execute ⟨"what is mastra", none⟩ = V1.mastraOverviewGuide ∧
    V1.execute ⟨"how do I setup mastra", none⟩ = V1.mastraSetupGuide ∧
    V1.mastraSetupGuide.title = "Setting Up Mastra for Telex Integration" ∧
    includes V1.mastraSetupGuide.content "npm install" = true ∧
    includes V1.mastraOverviewGuide.content "npm install" = false :=
  ⟨by rfl, by rfl, by rfl, by decide, by decide, by decide⟩

/-- C4 counterexample: the three sub-dispatchers do not share the keyword set
setup/install/initialize/start — the query "initialize" contains the claimed
keyword "initialize" yet the Python/FastAPI sub-dispatcher returns its
overview variant, and the query "setup" contains the claimed keyword "setup"
yet the Telex-integration sub-dispatcher returns its overview variant. -/
theorem subdispatch_keyword_counterexample :
    includes (lower "initialize") "initialize" = true ∧
    V1.getPythonFastAPIGuide "initialize" = V1.pythonOverviewGuide ∧
    (V1.getPythonFastAPIGuide "initialize").title ≠
      "Building A2A Agents with Python and FastAPI" ∧
    includes (lower "setup") "setup" = true ∧
    V1.getTelexIntegrationGuide "setup" = V1.telexOverviewGuide ∧
    (V1.getTelexIntegrationGuide "setup").title ≠
      "Connecting Your Agent to Telex.im" :=
  ⟨by decide, by rfl, by decide, by decide, by rfl, by decide⟩

/-- C4 (amended): the Mastra sub-dispatcher picks its setup variant exactly
when the lower-cased text contains setup, install, initialize, or start; the
Python/FastAPI sub-dispatcher exactly when it contains setup, install, or
start (no initialize); and the Telex-integration sub-dispatcher picks its
detailed variant exactly when it contains connect, integrate, deploy, telex,
or workflow — each returning its overview variant otherwise. -/
theorem subdispatch_keyword_pattern (query : String) :
    (V1.getPythonFastAPIGuide query = V1.pythonSetupGuide ↔
      (includes (lower query) "setup" || includes (lower query) "install" ||
        includes (lower query) "start") = true) ∧
    (V1.getPythonFastAPIGuide query = V1.pythonOverviewGuide ↔
      (includes (lower query) "setup" || includes (lower query) "install" ||
        includes (lower query) "start") = false) ∧
    (V1.getMastraIntegrationGuide query = V1.mastraSetupGuide ↔
      (includes (lower query) "setup" || includes (lower query) "install" ||
        includes (lower query) "initialize" || includes (lower query) "start") = true) ∧
    (V1.getMastraIntegrationGuide query = V1.mastraOverviewGuide ↔
      (includes (lower query) "setup" || includes (lower query) "install" ||
        includes (lower query) "initialize" || includes (lower query) "start") = false) ∧
    (V1.getTelexIntegrationGuide query = V1.telexDetailedGuide ↔
      (includes (lower query) "connect" || includes (lower query) "integrate" ||
        includes (lower query) "deploy" || includes (lower query) "telex" ||
        includes (lower query) "workflow") = true) ∧
    (V1.getTelexIntegrationGuide query = V1.telexOverviewGuide ↔
      (includes (lower query) "connect" || includes (lower query) "integrate" ||
        includes (lower query) "deploy" || includes (lower query) "telex" ||
        includes (lower query) "workflow") = false) := by
  refine ⟨?_, ?_, ?_, ?_, ?_, ?_⟩
  · by_cases h : (includes (lower query) "setup" || includes (lower query) "install" ||
        includes (lower query) "start") = true
    · simp [V1.getPythonFastAPIGuide, h]
    · rw [Bool.not_eq_true] at h
      simp [V1.getPythonFastAPIGuide, h, Ne.symm pythonSetup_ne_overview]
  · by_cases h : (includes (lower query) "setup" || includes (lower query) "install" ||
        includes (lower query) "start") = true
    · simp [V1.getPythonFastAPIGuide, h, pythonSetup_ne_overview]
    · rw [Bool.not_eq_true] at h
      simp [V1.getPythonFastAPIGuide, h]
  · by_cases h : (includes (lower query) "setup" || includes (lower query) "install" ||
        includes (lower query) "initialize" || includes (lower query) "start") = true
    · simp [V1.getMastraIntegrationGuide, h]
    · rw [Bool.not_eq_true] at h
      simp [V1.getMastraIntegrationGuide, h, Ne.symm mastraSetup_ne_overview]
  · by_cases h : (includes (lower query) "setup" || includes (lower query) "install" ||
        includes (lower query) "initialize" || includes (lower query) "start") = true
    · simp [V1.getMastraIntegrationGuide, h, mastraSetup_ne_overview]
    · rw [Bool.not_eq_true] at h
      simp [V1.getMastraIntegrationGuide, h]
  · by_cases h : (includes (lower query) "connect" || includes (lower query) "integrate" ||
        includes (lower query) "deploy" || includes (lower query) "telex" ||
        includes (lower query) "workflow") = true
    · simp [V1.getTelexIntegrationGuide, h]
    · rw [Bool.not_eq_true] at h
      simp [V1.getTelexIntegrationGuide, h, Ne.symm telexDetailed_ne_overview]
  · by_cases h : (includes (lower query) "connect" || includes (lower query) "integrate" ||
        includes (lower query) "deploy" || includes (lower query) "telex" ||
        includes (lower query) "workflow") = true
    · simp [V1.getTelexIntegrationGuide, h, telexDetailed_ne_overview]
    · rw [Bool.not_eq_true] at h
      simp [V1.getTelexIntegrationGuide, h]

/-- C5: any query that reaches the Telex-integration branch of the richer
dispatcher (its lower-cased text contains connect, integrate, or telex)
makes the sub-dispatcher return the detailed variant "Connecting Your Agent
to Telex.im"; consequently the "Telex.im Integration Overview" variant is
never the dispatcher's result, for any input at all. -/
theorem telexOverview_unreachable :
    (∀ query : String,
        (includes query "connect" || includes query "integrate" ||
          includes query "telex") = true →
        V1.getTelexIntegrationGuide query = V1.telexDetailedGuide ∧
        (V1.getTelexIntegrationGuide query).title = "Connecting Your Agent to Telex.im") ∧
    (∀ ctx : Context,
        (V1.execute ctx).title ≠ "Telex.im Integration Overview" ∧
        V1.execute ctx ≠ V1.telexOverviewGuide) := by
  constructor
  · intro q h
    have hd := telex_detailed_of_keyword q h
    exact ⟨hd, by rw [hd]; decide⟩
  · intro ctx
    have hne : (V1.execute ctx).title ≠ "Telex.im Integration Overview" := by
      rcases execute_cases ctx with h | h | h | h | h | h | h | ⟨hc, h⟩ | h
      · rw [h]; decide
      · rw [h]; decide
      · rw [h]; decide
      · rw [h]; decide
      · rw [h]; decide
      · rw [h]; exact genericTitleV1_ne_telexOverview _
      · rw [h]; decide
      · rw [h, telex_detailed_of_keyword _ hc]; decide
      · rw [h]; decide
    exact ⟨hne, fun heq => hne (congrArg GuideResult.title heq)⟩

/-- C5 witness: the query "connect me" triggers the detailed Telex guide,
and a sample dispatch never yields the overview variant. -/
theorem telexOverview_unreachable_witness :
    V1.getTelexIntegrationGuide "connect me" = V1.telexDetailedGuide ∧
    (V1.execute ⟨"telex", none⟩).title ≠ "Telex.im Integration Overview" :=
  ⟨(telexOverview_unreachable.1 "connect me" (by decide)).1,
    (telexOverview_unreachable.2 ⟨"telex", none⟩).1⟩

/-- C6: the two dispatcher variants are not extensionally equal — on the
query "a2a protocol" with no language hint the richer variant returns the
A2A protocol guide with category a2a-protocol, while the simpler variant
(which has no protocol branch and no a2a-protocol category) falls through to
its default getting-started guide with category general and a different
title. -/
theorem variants_diverge :
    V1.execute ⟨"a2a protocol", none⟩ = V1.getA2AProtocolGuide ∧
    (V1.execute ⟨"a2a protocol", none⟩).category = Category.a2aProtocol ∧
    V2.execute ⟨"a2a protocol", none⟩ = V2.defaultGuide ∧
    (V2.execute ⟨"a2a protocol", none⟩).category = Category2.general ∧
    (V2.execute ⟨"a2a protocol", none⟩).title ≠
      (V1.execute ⟨"a2a protocol", none⟩).title :=
  ⟨by rfl, by decide, by rfl, by decide, by decide⟩

/-- C7: every query matching no routing predicate — none of the six branch
conditions of the richer dispatcher holds — falls through to the default
"getting started" guide with category general; no error is raised (the
dispatcher is a total function on such inputs too). -/
theorem default_fallback (ctx : Context)
    (h1 : (includes (lower ctx.query) "a2a" ||
        includes (lower ctx.query) "agent-to-agent" ||
        includes (lower ctx.query) "protocol") = false)
    (h2 : (includes (lower (ctx.language.getD "")) "python" ||
        includes (lower ctx.query) "python" ||
        includes (lower ctx.query) "fastapi") = false)
    (h3 : (includes (lower (ctx.language.getD "")) "typescript" ||
        includes (lower (ctx.language.getD "")) "javascript" ||
        includes (lower ctx.query) "mastra") = false)
    (h4 : (!(lower (ctx.language.getD "") == "") &&
        (["go", "java", "php", "rust", "c#", "csharp"].any fun lang =>
          includes (lower (ctx.language.getD "")) lang)) = false)
    (h5 : (includes (lower ctx.query) "workflow" ||
        includes (lower ctx.query) "json" ||
        includes (lower ctx.query) "example") = false)
    (h6 : (includes (lower ctx.query) "connect" ||
        includes (lower ctx.query) "integrate" ||
        includes (lower ctx.query) "telex") = false) :
    V1.execute ctx = V1.defaultGuide ∧
    (V1.execute ctx).category = Category.general ∧
    (V1.execute ctx).title = "Getting Started with Telex Agent Builder" := by
  have n1 : ¬((includes (lower ctx.query) "a2a" ||
      includes (lower ctx.query) "agent-to-agent" ||
      includes (lower ctx.query) "protocol") = true) := by rw [h1]; decide
  have n2 : ¬((includes (lower (ctx.language.getD "")) "python" ||
      includes (lower ctx.query) "python" ||
      includes (lower ctx.query) "fastapi") = true) := by rw [h2]; decide
  have n3 : ¬((includes (lower (ctx.language.getD "")) "typescript" ||
      includes (lower (ctx.language.getD "")) "javascript" ||
      includes (lower ctx.query) "mastra") = true) := by rw [h3]; decide
  have n4 : ¬((!(lower (ctx.language.getD "") == "") &&
      (["go", "java", "php", "rust", "c#", "csharp"].any fun lang =>
        includes (lower (ctx.language.getD "")) lang)) = true) := by rw [h4]; decide
  have n5 : ¬((includes (lower ctx.query) "workflow" ||
      includes (lower ctx.query) "json" ||
      includes (lower ctx.query) "example") = true) := by rw [h5]; decide
  have n6 : ¬((includes (lower ctx.query) "connect" ||
      includes (lower ctx.query) "integrate" ||
      includes (lower ctx.query) "telex") = true) := by rw [h6]; decide
  have he : V1.execute ctx = V1.defaultGuide := by
    simp only [V1.execute]
    rw [if_neg n1, if_neg n2, if_neg n3, if_neg n4, if_neg n5, if_neg n6]
  rw [he]
  exact ⟨rfl, rfl, rfl⟩

/-- C7 witness: the empty text and the unrelated text "xyzzy completely
unrelated", both with no language hint, satisfy all six no-match hypotheses
and receive the default guide. -/
theorem default_fallback_witness :
    (V1.execute ⟨"", none⟩ = V1.defaultGuide ∧
      (V1.execute ⟨"", none⟩).category = Category.general ∧
      (V1.execute ⟨"", none⟩).title = "Getting Started with Telex Agent Builder") ∧
    (V1.execute ⟨"xyzzy completely unrelated", none⟩ = V1.defaultGuide ∧
      (V1.execute ⟨"xyzzy completely unrelated", none⟩).category = Category.general ∧
      (V1.execute ⟨"xyzzy completely unrelated", none⟩).title =
        "Getting Started with Telex Agent Builder") :=
  ⟨default_fallback ⟨"", none⟩ (by decide) (by decide) (by decide) (by decide)
      (by decide) (by decide),
    default_fallback ⟨"xyzzy completely unrelated", none⟩ (by decide) (by decide)
      (by decide) (by decide) (by decide) (by decide)⟩

/-- C8: the query "how do I begin" with language hint "python" routes to the
Python/FastAPI guide although the text itself contains neither "python" nor
"fastapi" — the language field alone triggers the branch (the sub-dispatcher
then picks its overview variant, since the text has no setup keyword). -/
theorem language_hint_precedence :
    includes (lower "how do I begin") "python" = false ∧
    includes (lower "how do I begin") "fastapi" = false ∧
    V1.execute ⟨"how do I begin", some "python"⟩ =
      V1.getPythonFastAPIGuide (lower "how do I begin") ∧
    V1.execute ⟨"how do I begin", some "python"⟩ = V1.pythonOverviewGuide ∧
    (V1.execute ⟨"how do I begin", some "python"⟩).category = Category.integration :=
  ⟨by decide, by decide, by rfl, by rfl, by decide⟩

/-- C9: the query "help" with language hint "Go" is answered by the generic
other-language branch, whose templated title embeds the literal string "Go"
with correct capitalization, under category integration. -/
theorem generic_language_templating :
    V1.execute ⟨"help", some "Go"⟩ = V1.getGenericIntegrationGuide "go" ∧
    (V1.execute ⟨"help", some "Go"⟩).title = "Building a Go Agent for Telex.im" ∧
    includes (V1.execute ⟨"help", some "Go"⟩).title "Go" = true ∧
    (V1.execute ⟨"help", some "Go"⟩).category = Category.integration :=
  ⟨by rfl, by decide, by decide, by decide⟩

/-- C10: the richer dispatcher is a pure function of its input — any two
results obtained from identical (text, language) pairs agree on title,
category, content, example snippet, and resource list. -/
theorem execute_deterministic (ctx : Context) (r₁ r₂ : GuideResult)
    (h₁ : r₁ = V1.execute ctx) (h₂ : r₂ = V1.execute ctx) :
    r₁.title = r₂.title ∧ r₁.category = r₂.category ∧ r₁.content = r₂.content ∧
    r₁.exampleSnippet = r₂.exampleSnippet ∧ r₁.resources = r₂.resources := by
  subst h₁
  subst h₂
  exact ⟨rfl, rfl, rfl, rfl, rfl⟩

/-- C10 witness: instantiated at the query "mastra" with both results being
the very call. -/
theorem execute_deterministic_witness :
    (V1.execute ⟨"mastra", none⟩).title = (V1.execute ⟨"mastra", none⟩).title ∧
    (V1.execute ⟨"mastra", none⟩).category = (V1.execute ⟨"mastra", none⟩).category ∧
    (V1.execute ⟨"mastra", none⟩).content = (V1.execute ⟨"mastra", none⟩).content ∧
    (V1.execute ⟨"mastra", none⟩).exampleSnippet =
      (V1.execute ⟨"mastra", none⟩).exampleSnippet ∧
    (V1.execute ⟨"mastra", none⟩).resources = (V1.execute ⟨"mastra", none⟩).resources :=
  execute_deterministic ⟨"mastra", none⟩ (V1.execute ⟨"mastra", none⟩)
    (V1.execute ⟨"mastra", none⟩) rfl rfl

end TelexSpec
